import Mathlib

/-!
Shallow embedding of `kinematic_constraints/src/kinematic_constraint.cpp`
(moveit_core).  Machine doubles are modelled as real numbers.  External
collaborators (the kinematic model, the transform service, the
geometric-shapes body library, Bullet's euler/quaternion routines and the
collision checker) are modelled as records of abstract functions, mirroring
the narrow interfaces the source calls through.
-/

noncomputable section

namespace KinematicConstraints

/-- Model of std::numeric_limits<double>::epsilon() (DBL_EPSILON = 2^-52),
the threshold the source compares weights and radii against. -/
def dblEps : ℝ := 1 / 2 ^ 52

/-- Truncation toward zero, the rounding used by C fmod. -/
def rtrunc (x : ℝ) : ℤ := if 0 ≤ x then ⌊x⌋ else ⌈x⌉

/-- C fmod (btFmod): x - y * trunc (x / y). -/
def btFmod (x y : ℝ) : ℝ := x - y * rtrunc (x / y)

/-- Bullet btNormalizeAngle: fmod by 2*pi, then shift into [-pi, pi]. -/
def btNormalizeAngle (x : ℝ) : ℝ :=
  let a := btFmod x (2 * Real.pi)
  if a < -Real.pi then a + 2 * Real.pi
  else if a > Real.pi then a - 2 * Real.pi
  else a

/-- btVector3. -/
structure Vec3 where
  x : ℝ
  y : ℝ
  z : ℝ

def Vec3.add (a b : Vec3) : Vec3 := ⟨a.x + b.x, a.y + b.y, a.z + b.z⟩

def Vec3.sub (a b : Vec3) : Vec3 := ⟨a.x - b.x, a.y - b.y, a.z - b.z⟩

def Vec3.dot (a b : Vec3) : ℝ := a.x * b.x + a.y * b.y + a.z * b.z

/-- btVector3::length2. -/
def Vec3.length2 (a : Vec3) : ℝ := a.dot a

/-- btVector3::length. -/
def Vec3.length (a : Vec3) : ℝ := Real.sqrt a.length2

/-- btVector3::normalized: componentwise division by the length. -/
def Vec3.normalized (a : Vec3) : Vec3 := ⟨a.x / a.length, a.y / a.length, a.z / a.length⟩

/-- The Euclidean distance computed by finishPositionConstraintDecision:
sqrt(dx*dx + dy*dy + dz*dz) with dx = desired.x - pt.x etc. -/
def Vec3.distTo (pt desired : Vec3) : ℝ :=
  Real.sqrt ((desired.x - pt.x) ^ 2 + (desired.y - pt.y) ^ 2 + (desired.z - pt.z) ^ 2)

/-- btMatrix3x3, row major: mRC is row R, column C. -/
structure Mat3 where
  m00 : ℝ
  m01 : ℝ
  m02 : ℝ
  m10 : ℝ
  m11 : ℝ
  m12 : ℝ
  m20 : ℝ
  m21 : ℝ
  m22 : ℝ

def Mat3.id : Mat3 := ⟨1, 0, 0, 0, 1, 0, 0, 0, 1⟩

/-- Matrix times column vector (rows dotted with the vector). -/
def Mat3.mulVec (m : Mat3) (v : Vec3) : Vec3 :=
  ⟨m.m00 * v.x + m.m01 * v.y + m.m02 * v.z,
   m.m10 * v.x + m.m11 * v.y + m.m12 * v.z,
   m.m20 * v.x + m.m21 * v.y + m.m22 * v.z⟩

/-- Matrix product. -/
def Mat3.mul (a b : Mat3) : Mat3 :=
  ⟨a.m00 * b.m00 + a.m01 * b.m10 + a.m02 * b.m20,
   a.m00 * b.m01 + a.m01 * b.m11 + a.m02 * b.m21,
   a.m00 * b.m02 + a.m01 * b.m12 + a.m02 * b.m22,
   a.m10 * b.m00 + a.m11 * b.m10 + a.m12 * b.m20,
   a.m10 * b.m01 + a.m11 * b.m11 + a.m12 * b.m21,
   a.m10 * b.m02 + a.m11 * b.m12 + a.m12 * b.m22,
   a.m20 * b.m00 + a.m21 * b.m10 + a.m22 * b.m20,
   a.m20 * b.m01 + a.m21 * b.m11 + a.m22 * b.m21,
   a.m20 * b.m02 + a.m21 * b.m12 + a.m22 * b.m22⟩

/-- btMatrix3x3::getColumn(2). -/
def Mat3.col2 (m : Mat3) : Vec3 := ⟨m.m02, m.m12, m.m22⟩

/-- btMatrix3x3::inverse: cofactor expansion divided by the determinant
(Bullet performs the division unconditionally; real division by zero is 0
here, infinity in C, a difference invisible to the claims since inverses are
only fed to the abstract euler decomposition). -/
def Mat3.inverse (m : Mat3) : Mat3 :=
  let cox := m.m11 * m.m22 - m.m12 * m.m21
  let coy := m.m12 * m.m20 - m.m10 * m.m22
  let coz := m.m10 * m.m21 - m.m11 * m.m20
  let s := 1 / (m.m00 * cox + m.m01 * coy + m.m02 * coz)
  ⟨cox * s, (m.m02 * m.m21 - m.m01 * m.m22) * s, (m.m01 * m.m12 - m.m02 * m.m11) * s,
   coy * s, (m.m00 * m.m22 - m.m02 * m.m20) * s, (m.m02 * m.m10 - m.m00 * m.m12) * s,
   coz * s, (m.m01 * m.m20 - m.m00 * m.m21) * s, (m.m00 * m.m11 - m.m01 * m.m10) * s⟩

/-- btTransform: rotation basis plus translation origin. -/
structure Tr where
  basis : Mat3
  origin : Vec3

def Tr.id : Tr := ⟨Mat3.id, ⟨0, 0, 0⟩⟩

/-- btTransform::operator(): basis * v + origin. -/
def Tr.apply (t : Tr) (v : Vec3) : Vec3 := (t.basis.mulVec v).add t.origin

/-- btQuaternion. -/
structure Quat where
  x : ℝ
  y : ℝ
  z : ℝ
  w : ℝ

def Quat.id : Quat := ⟨0, 0, 0, 1⟩

/-- geometry_msgs quaternion field. -/
structure QuatMsg where
  x : ℝ
  y : ℝ
  z : ℝ
  w : ℝ

/-- geometry_msgs pose field (position + orientation), left unparsed:
planning_models::poseFromMsg (an external collaborator) turns it into a
transform. -/
structure PoseMsgRaw where
  px : ℝ
  py : ℝ
  pz : ℝ
  qx : ℝ
  qy : ℝ
  qz : ℝ
  qw : ℝ

/-- A stamped pose: frame id plus raw pose. -/
structure PoseStampedMsg where
  frame_id : String
  pose : PoseMsgRaw

/-- A stamped quaternion: frame id plus raw quaternion. -/
structure QuatStampedMsg where
  frame_id : String
  quaternion : QuatMsg

/-- Shape descriptor consumed by shapes::constructShapeFromMsg (opaque to
this core; only the external body constructor reads it). -/
structure ShapeMsg where
  type : ℕ
  dimensions : List ℝ

/-- moveit_msgs::JointConstraint. -/
structure JointConstraintMsg where
  joint_name : String
  position : ℝ
  tolerance_above : ℝ
  tolerance_below : ℝ
  weight : ℝ

/-- moveit_msgs::PositionConstraint. -/
structure PositionConstraintMsg where
  link_name : String
  target_point_offset : Vec3
  constraint_region_shape : ShapeMsg
  constraint_region_pose : PoseStampedMsg
  weight : ℝ

/-- moveit_msgs::OrientationConstraint. -/
structure OrientationConstraintMsg where
  link_name : String
  orientation : QuatStampedMsg
  absolute_roll_tolerance : ℝ
  absolute_pitch_tolerance : ℝ
  absolute_yaw_tolerance : ℝ
  weight : ℝ

/-- moveit_msgs::VisibilityConstraint. -/
structure VisibilityConstraintMsg where
  target_radius : ℝ
  cone_sides : ℤ
  target_pose : PoseStampedMsg
  sensor_pose : PoseStampedMsg
  max_view_angle : ℝ
  weight : ℝ

/-- moveit_msgs::Constraints: the aggregate specification. -/
structure ConstraintsMsg where
  joint_constraints : List JointConstraintMsg
  position_constraints : List PositionConstraintMsg
  orientation_constraints : List OrientationConstraintMsg
  visibility_constraints : List VisibilityConstraintMsg

/-- A bodies::Body (external): a pose plus a pose-dependent containment
test.  cloneAt re-poses the body, setPose mutates the pose. -/
structure Body where
  pose : Tr
  contains : Tr → Vec3 → Bool

def Body.setPose (b : Body) (p : Tr) : Body := { b with pose := p }

def Body.cloneAt (b : Body) (p : Tr) : Body := { b with pose := p }

def Body.containsPoint (b : Body) (v : Vec3) : Bool := b.contains b.pose v

/-- The slice of planning_models::KinematicState the source reads:
joint values by joint name and global link transforms by link name. -/
structure KState where
  jointValues : String → Option ℝ
  linkTransforms : String → Option Tr

/-- The slice of a joint model the source reads: variable count and whether
the joint is a continuous revolute joint. -/
structure JointModelInfo where
  variableCount : ℕ
  isContinuousRevolute : Bool

/-- The slice of planning_models::KinematicModel the source reads. -/
structure KModel where
  getJointModel : String → Option JointModelInfo
  getLinkModel : String → Option Unit

/-- A triangulated mesh (shapes::Mesh): vertex list plus triangles as index
triples. -/
structure Mesh where
  vertices : List Vec3
  triangles : List (ℕ × ℕ × ℕ)

/-- External collaborators: transform service (tf), message parsers,
Bullet euler/quaternion decomposition and the collision checker. -/
structure Ext where
  isFixedFrame : String → Bool
  planningFrame : String
  tfTransformFixed : Tr → String → Tr
  tfQuatFixed : Quat → String → Quat
  tfTransformAtState : KState → Tr → String → Tr
  tfMatrixAtState : KState → Mat3 → String → Mat3
  tfToTargetFrame : KState → String → Tr
  poseFromMsg : PoseMsgRaw → Tr
  quatFromMsg : QuatMsg → Quat
  quatToMat : Quat → Mat3
  eulerYPR : Mat3 → ℝ × ℝ × ℝ
  constructBody : ShapeMsg → Option Body
  checkRobotCollision : Mesh → KState → Bool × ℝ

/-! ### JointConstraint -/

/-- kinematic_constraints::JointConstraint.  joint_model holds the resolved
joint's name; none models the NULL pointer (disabled constraint). -/
structure JointConstraint where
  joint_model : Option String
  joint_is_continuous : Bool
  joint_position : ℝ
  joint_tolerance_above : ℝ
  joint_tolerance_below : ℝ
  constraint_weight : ℝ

/-- A freshly constructed constraint: the base constructor sets
constraint_weight_ to epsilon; the other numeric members are uninitialized
in C++ and never read while the constraint is disabled, so arbitrary values
stand in for them. -/
def JointConstraint.init : JointConstraint :=
  { joint_model := none
    joint_is_continuous := false
    joint_position := 0
    joint_tolerance_above := 0
    joint_tolerance_below := 0
    constraint_weight := dblEps }

/-- JointConstraint::use. -/
def JointConstraint.use (model : KModel) (jc : JointConstraintMsg) (self : JointConstraint) :
    JointConstraint × Bool :=
  match model.getJointModel jc.joint_name with
  | none => ({ self with joint_model := none, joint_is_continuous := false }, false)
  | some jm =>
      let contin := jm.isContinuousRevolute
      let pos := if contin then btNormalizeAngle jc.position else jc.position
      let jmodel : Option String :=
        if jm.variableCount = 0 then none
        else if 1 < jm.variableCount then none
        else some jc.joint_name
      let w := if jc.weight ≤ dblEps then self.constraint_weight else jc.weight
      ({ self with
          joint_model := jmodel
          joint_is_continuous := contin
          joint_position := pos
          joint_tolerance_above := jc.tolerance_above
          joint_tolerance_below := jc.tolerance_below
          constraint_weight := w },
       jmodel.isSome)

/-- JointConstraint::decide. -/
def JointConstraint.decide (self : JointConstraint) (state : KState) : Bool × ℝ :=
  match self.joint_model with
  | none => (true, 0)
  | some name =>
      match state.jointValues name with
      | none => (false, 0)
      | some current =>
          let dif : ℝ :=
            if self.joint_is_continuous then
              let d0 := btNormalizeAngle current - self.joint_position
              let d1 :=
                if d0 > Real.pi then 2 * Real.pi - d0
                else if d0 < -Real.pi then d0 + 2 * Real.pi
                else d0
              if current < self.joint_position then -d1 else d1
            else current - self.joint_position
          (if dif ≤ self.joint_tolerance_above ∧ dif ≥ -self.joint_tolerance_below
            then true else false,
           self.constraint_weight * |dif|)

/-- JointConstraint::enabled. -/
def JointConstraint.enabled (self : JointConstraint) : Bool := self.joint_model.isSome

/-- JointConstraint::clear. -/
def JointConstraint.clear (self : JointConstraint) : JointConstraint :=
  { self with joint_model := none }

/-! ### PositionConstraint -/

/-- kinematic_constraints::PositionConstraint. -/
structure PositionConstraint where
  link_model : Option String
  offset : Vec3
  has_offset : Bool
  constraint_region : Option Body
  constraint_region_pose : Tr
  constraint_frame_id : String
  mobile_frame : Bool
  constraint_weight : ℝ

/-- Freshly constructed position constraint (see JointConstraint.init). -/
def PositionConstraint.init : PositionConstraint :=
  { link_model := none
    offset := ⟨0, 0, 0⟩
    has_offset := false
    constraint_region := none
    constraint_region_pose := Tr.id
    constraint_frame_id := ""
    mobile_frame := false
    constraint_weight := dblEps }

/-- PositionConstraint::use. -/
def PositionConstraint.use (model : KModel) (ext : Ext) (pc : PositionConstraintMsg)
    (self : PositionConstraint) : PositionConstraint × Bool :=
  let link : Option String := (model.getLinkModel pc.link_name).map fun _ => pc.link_name
  let offset := pc.target_point_offset
  let hasOffset := if dblEps < offset.length2 then true else false
  let region : Option Body := ext.constructBody pc.constraint_region_shape
  match link, region with
  | some ln, some body =>
      let pose0 := ext.poseFromMsg pc.constraint_region_pose.pose
      if ext.isFixedFrame pc.constraint_region_pose.frame_id then
        let pose := ext.tfTransformFixed pose0 pc.constraint_region_pose.frame_id
        ({ self with
            link_model := some ln
            offset := offset
            has_offset := hasOffset
            constraint_region := some (body.setPose pose)
            constraint_region_pose := pose
            constraint_frame_id := ext.planningFrame
            mobile_frame := false
            constraint_weight :=
              if pc.weight ≤ dblEps then self.constraint_weight else pc.weight }, true)
      else
        ({ self with
            link_model := some ln
            offset := offset
            has_offset := hasOffset
            constraint_region := some body
            constraint_region_pose := pose0
            constraint_frame_id := pc.constraint_region_pose.frame_id
            mobile_frame := true
            constraint_weight :=
              if pc.weight ≤ dblEps then self.constraint_weight else pc.weight }, true)
  | lnk, reg =>
      ({ self with
          link_model := lnk
          offset := offset
          has_offset := hasOffset
          constraint_region := reg }, false)

/-- PositionConstraint::decide (including finishPositionConstraintDecision). -/
def PositionConstraint.decide (self : PositionConstraint) (ext : Ext) (state : KState) :
    Bool × ℝ :=
  match self.link_model, self.constraint_region with
  | some l, some body =>
      match state.linkTransforms l with
      | none => (false, 0)
      | some tr =>
          let pt := tr.apply self.offset
          if self.mobile_frame then
            let tmp := ext.tfTransformAtState state self.constraint_region_pose
              self.constraint_frame_id
            ((body.cloneAt tmp).containsPoint pt,
             self.constraint_weight * Vec3.distTo pt tmp.origin)
          else
            (body.containsPoint pt,
             self.constraint_weight * Vec3.distTo pt body.pose.origin)
  | _, _ => (true, 0)

/-- PositionConstraint::enabled. -/
def PositionConstraint.enabled (self : PositionConstraint) : Bool :=
  self.link_model.isSome && self.constraint_region.isSome

/-- PositionConstraint::clear. -/
def PositionConstraint.clear (self : PositionConstraint) : PositionConstraint :=
  { self with link_model := none, constraint_region := none }

/-! ### OrientationConstraint -/

/-- kinematic_constraints::OrientationConstraint. -/
structure OrientationConstraint where
  link_model : Option String
  desired_rotation_matrix : Mat3
  desired_rotation_matrix_inv : Mat3
  desired_rotation_frame_id : String
  mobile_frame : Bool
  absolute_roll_tolerance : ℝ
  absolute_pitch_tolerance : ℝ
  absolute_yaw_tolerance : ℝ
  constraint_weight : ℝ

/-- Freshly constructed orientation constraint (see JointConstraint.init). -/
def OrientationConstraint.init : OrientationConstraint :=
  { link_model := none
    desired_rotation_matrix := Mat3.id
    desired_rotation_matrix_inv := Mat3.id
    desired_rotation_frame_id := ""
    mobile_frame := false
    absolute_roll_tolerance := 0
    absolute_pitch_tolerance := 0
    absolute_yaw_tolerance := 0
    constraint_weight := dblEps }

/-- OrientationConstraint::use. -/
def OrientationConstraint.use (model : KModel) (ext : Ext) (oc : OrientationConstraintMsg)
    (self : OrientationConstraint) : OrientationConstraint × Bool :=
  let link : Option String := (model.getLinkModel oc.link_name).map fun _ => oc.link_name
  let q := ext.quatFromMsg oc.orientation.quaternion
  let fixed := ext.isFixedFrame oc.orientation.frame_id
  let q2 := if fixed then ext.tfQuatFixed q oc.orientation.frame_id else q
  let mat := ext.quatToMat q2
  ({ self with
      link_model := link
      desired_rotation_matrix := mat
      desired_rotation_matrix_inv :=
        if fixed then mat.inverse else self.desired_rotation_matrix_inv
      desired_rotation_frame_id := if fixed then ext.planningFrame else oc.orientation.frame_id
      mobile_frame := !fixed
      constraint_weight := if oc.weight ≤ dblEps then self.constraint_weight else oc.weight
      absolute_yaw_tolerance := |oc.absolute_yaw_tolerance|
      absolute_pitch_tolerance := |oc.absolute_pitch_tolerance|
      absolute_roll_tolerance := |oc.absolute_roll_tolerance| },
   link.isSome)

/-- The (yaw, pitch, roll) triple OrientationConstraint::decide extracts for
a link whose global transform is tr. -/
def OrientationConstraint.errorYPR (self : OrientationConstraint) (ext : Ext) (state : KState)
    (tr : Tr) : ℝ × ℝ × ℝ :=
  if self.mobile_frame then
    let tmp := ext.tfMatrixAtState state self.desired_rotation_matrix
      self.desired_rotation_frame_id
    ext.eulerYPR (Mat3.mul tmp.inverse tr.basis)
  else
    ext.eulerYPR (Mat3.mul self.desired_rotation_matrix_inv tr.basis)

/-- OrientationConstraint::decide. -/
def OrientationConstraint.decide (self : OrientationConstraint) (ext : Ext) (state : KState) :
    Bool × ℝ :=
  match self.link_model with
  | none => (true, 0)
  | some l =>
      match state.linkTransforms l with
      | none => (false, 0)
      | some tr =>
          let e := self.errorYPR ext state tr
          let yaw := e.1
          let pitch := e.2.1
          let roll := e.2.2
          (if |roll| < self.absolute_roll_tolerance ∧
              |pitch| < self.absolute_pitch_tolerance ∧
              |yaw| < self.absolute_yaw_tolerance then true else false,
           self.constraint_weight * (|roll| + |pitch| + |yaw|))

/-- OrientationConstraint::enabled. -/
def OrientationConstraint.enabled (self : OrientationConstraint) : Bool :=
  self.link_model.isSome

/-- OrientationConstraint::clear. -/
def OrientationConstraint.clear (self : OrientationConstraint) : OrientationConstraint :=
  { self with link_model := none }

/-! ### VisibilityConstraint -/

/-- kinematic_constraints::VisibilityConstraint. -/
structure VisibilityConstraint where
  target_radius : ℝ
  cone_sides : ℕ
  points : List Vec3
  target_pose : Tr
  target_frame_id : String
  mobile_target_frame : Bool
  sensor_pose : Tr
  sensor_frame_id : String
  mobile_sensor_frame : Bool
  max_view_angle : ℝ
  constraint_weight : ℝ

/-- Freshly constructed visibility constraint.  In C++ target_radius_ is
uninitialized until use() runs; -1 (the value clear() writes) stands in for
it, and is never observed because add() always calls use(). -/
def VisibilityConstraint.init : VisibilityConstraint :=
  { target_radius := -1
    cone_sides := 0
    points := []
    target_pose := Tr.id
    target_frame_id := ""
    mobile_target_frame := false
    sensor_pose := Tr.id
    sensor_frame_id := ""
    mobile_sensor_frame := false
    max_view_angle := 0
    constraint_weight := dblEps }

/-- VisibilityConstraint::use. -/
def VisibilityConstraint.use (ext : Ext) (vc : VisibilityConstraintMsg)
    (self : VisibilityConstraint) : VisibilityConstraint × Bool :=
  let radius := |vc.target_radius|
  let sides : ℕ := (if vc.cone_sides < 3 then 3 else vc.cone_sides).toNat
  let delta := 2 * Real.pi / (sides : ℝ)
  let pts : List Vec3 := (List.range sides).map fun i =>
    ⟨Real.sin ((i : ℝ) * delta) * radius, Real.cos ((i : ℝ) * delta) * radius, 0⟩
  let tpose0 := ext.poseFromMsg vc.target_pose.pose
  let tfixed := ext.isFixedFrame vc.target_pose.frame_id
  let tpose := if tfixed then ext.tfTransformFixed tpose0 vc.target_pose.frame_id else tpose0
  let pts2 := if tfixed then pts.map tpose.apply else pts
  let spose0 := ext.poseFromMsg vc.sensor_pose.pose
  let sfixed := ext.isFixedFrame vc.sensor_pose.frame_id
  let spose := if sfixed then ext.tfTransformFixed spose0 vc.sensor_pose.frame_id else spose0
  ({ target_radius := radius
     cone_sides := sides
     points := pts2
     target_pose := tpose
     target_frame_id := if tfixed then ext.planningFrame else vc.target_pose.frame_id
     mobile_target_frame := !tfixed
     sensor_pose := spose
     sensor_frame_id := if sfixed then ext.planningFrame else vc.sensor_pose.frame_id
     mobile_sensor_frame := !sfixed
     max_view_angle := vc.max_view_angle
     constraint_weight := if vc.weight ≤ dblEps then self.constraint_weight else vc.weight },
   if dblEps < radius then true else false)

/-- VisibilityConstraint::enabled. -/
def VisibilityConstraint.enabled (self : VisibilityConstraint) : Bool :=
  if dblEps < self.target_radius then true else false

/-- VisibilityConstraint::clear. -/
def VisibilityConstraint.clear (self : VisibilityConstraint) : VisibilityConstraint :=
  { self with target_radius := -1 }

/-- The current sensor pose used by decide and getVisibilityCone. -/
def VisibilityConstraint.sensorPoseAt (self : VisibilityConstraint) (ext : Ext)
    (state : KState) : Tr :=
  if self.mobile_sensor_frame then ext.tfToTargetFrame state self.sensor_frame_id
  else self.sensor_pose

/-- The current target pose used by decide and getVisibilityCone. -/
def VisibilityConstraint.targetPoseAt (self : VisibilityConstraint) (ext : Ext)
    (state : KState) : Tr :=
  if self.mobile_target_frame then ext.tfToTargetFrame state self.target_frame_id
  else self.target_pose

/-- The view angle computed by decide when max_view_angle > 0:
acos of (target origin - sensor origin, normalized) dotted with the third
column of the target basis. -/
def VisibilityConstraint.viewAngle (self : VisibilityConstraint) (ext : Ext)
    (state : KState) : ℝ :=
  let sp := self.sensorPoseAt ext state
  let tp := self.targetPoseAt ext state
  Real.arccos (((tp.origin.sub sp.origin).normalized).dot tp.basis.col2)

/-- VisibilityConstraint::getVisibilityCone: vertex 0 is the sensor origin,
vertex 1 the disc centre, vertices 2.. the disc boundary points; side
triangles join consecutive boundary points to the apex, base triangles join
them to the centre, with a wrap-around triangle closing each fan. -/
def VisibilityConstraint.getVisibilityCone (self : VisibilityConstraint) (ext : Ext)
    (state : KState) : Mesh :=
  let sp := self.sensorPoseAt ext state
  let tp := self.targetPoseAt ext state
  let pts := if self.mobile_target_frame then self.points.map tp.apply else self.points
  let n := pts.length
  { vertices := sp.origin :: tp.origin :: pts
    triangles :=
      (((List.range (n - 1)).map fun i => (i + 2, 0, i + 3)) ++ [(n + 1, 0, 2)]) ++
      (((List.range (n - 1)).map fun i => (i + 2, 1, i + 3)) ++ [(n + 1, 1, 2)]) }

/-- VisibilityConstraint::decide. -/
def VisibilityConstraint.decide (self : VisibilityConstraint) (ext : Ext) (state : KState) :
    Bool × ℝ :=
  if self.target_radius ≤ dblEps then (true, 0)
  else if 0 < self.max_view_angle ∧ self.max_view_angle < self.viewAngle ext state then
    (false, 0)
  else
    let m := self.getVisibilityCone ext state
    let res := ext.checkRobotCollision m state
    if res.1 then (false, res.2) else (true, 0)

/-! ### KinematicConstraintSet -/

/-- The polymorphic constraint stored by a KinematicConstraintSet. -/
inductive Constraint where
  | joint : JointConstraint → Constraint
  | position : PositionConstraint → Constraint
  | orientation : OrientationConstraint → Constraint
  | visibility : VisibilityConstraint → Constraint

/-- Virtual dispatch of decide. -/
def Constraint.decide (c : Constraint) (ext : Ext) (state : KState) : Bool × ℝ :=
  match c with
  | .joint jc => jc.decide state
  | .position pc => pc.decide ext state
  | .orientation oc => oc.decide ext state
  | .visibility vc => vc.decide ext state

/-- kinematic_constraints::KinematicConstraintSet: the ordered constraint
collection plus the raw specification records, partitioned by kind. -/
structure KinematicConstraintSet where
  kce : List Constraint
  jc : List JointConstraintMsg
  pc : List PositionConstraintMsg
  oc : List OrientationConstraintMsg
  vc : List VisibilityConstraintMsg

/-- KinematicConstraintSet::clear. -/
def KinematicConstraintSet.clear (_ : KinematicConstraintSet) : KinematicConstraintSet :=
  ⟨[], [], [], [], []⟩

/-- KinematicConstraintSet::decide: fold over the members, result starts
true and is cleared by any unsatisfied member, cost accumulates every
member's cost unconditionally. -/
def KinematicConstraintSet.decide (s : KinematicConstraintSet) (ext : Ext) (state : KState) :
    Bool × ℝ :=
  s.kce.foldl
    (fun acc c =>
      let r := c.decide ext state
      (acc.1 && r.1, acc.2 + r.2))
    (true, 0)

/-! ### mergeConstraints -/

/-- kinematic_constraints::mergeConstraints: start from `first`; append each
joint constraint of `second` whose joint name matches none of `first`'s
joint constraints; append all position, orientation and visibility
constraints of `second` unconditionally. -/
def mergeConstraints (first second : ConstraintsMsg) : ConstraintsMsg :=
  { joint_constraints :=
      first.joint_constraints ++
        second.joint_constraints.filter fun jc =>
          ! first.joint_constraints.any fun j => jc.joint_name == j.joint_name
    position_constraints := first.position_constraints ++ second.position_constraints
    orientation_constraints := first.orientation_constraints ++ second.orientation_constraints
    visibility_constraints := first.visibility_constraints ++ second.visibility_constraints }

/-! ### Spec-side formulations -/

/-- Spec-side wrapped magnitude: d0 is replaced by the non-negative wrapped
magnitude 2*pi - abs d0 whenever abs d0 exceeds pi. -/
def wrapMag (d0 : ℝ) : ℝ :=
  if Real.pi < |d0| then 2 * Real.pi - |d0| else d0

/-- Spec-side signed difference for continuous joints, written from the
amended specification wording: apply wrapMag to d0 = normalized current
minus target, then negate exactly when the raw current value is numerically
below the stored target. -/
def wrappedDif (current target : ℝ) : ℝ :=
  if current < target then -(wrapMag (btNormalizeAngle current - target))
  else wrapMag (btNormalizeAngle current - target)

/-! ### Helper lemmas -/

lemma ite_true_false_eq_true_iff (P : Prop) [Decidable P] :
    (if P then true else false) = true ↔ P := by
  by_cases h : P <;> simp [h]

lemma btNormalizeAngle_eq_self {x : ℝ} (h1 : -Real.pi ≤ x) (h2 : x ≤ Real.pi) :
    btNormalizeAngle x = x := by
  have hpi := Real.pi_pos
  have h2pi : (0 : ℝ) < 2 * Real.pi := by linarith
  have htr : rtrunc (x / (2 * Real.pi)) = 0 := by
    unfold rtrunc
    by_cases hx : 0 ≤ x / (2 * Real.pi)
    · rw [if_pos hx, Int.floor_eq_zero_iff]
      exact ⟨hx, (div_lt_one h2pi).mpr (by linarith)⟩
    · rw [if_neg hx, Int.ceil_eq_zero_iff]
      refine ⟨?_, le_of_lt (lt_of_not_le hx)⟩
      rw [lt_div_iff₀ h2pi]
      linarith
  unfold btNormalizeAngle btFmod
  rw [htr]
  simp only [Int.cast_zero, mul_zero, sub_zero]
  rw [if_neg (not_lt.mpr h1), if_neg (not_lt.mpr h2)]

/-- The continuous branch of JointConstraint::decide computes exactly the
spec-side wrappedDif, for every real input. -/
lemma jointDecide_continuous (jc : JointConstraint) (state : KState) (n : String) (v : ℝ)
    (hm : jc.joint_model = some n) (hc : jc.joint_is_continuous = true)
    (hv : state.jointValues n = some v) :
    jc.decide state =
      (if wrappedDif v jc.joint_position ≤ jc.joint_tolerance_above ∧
          wrappedDif v jc.joint_position ≥ -jc.joint_tolerance_below then true else false,
       jc.constraint_weight * |wrappedDif v jc.joint_position|) := by
  have hd1 :
      (if btNormalizeAngle v - jc.joint_position > Real.pi then
          2 * Real.pi - (btNormalizeAngle v - jc.joint_position)
        else if btNormalizeAngle v - jc.joint_position < -Real.pi then
          btNormalizeAngle v - jc.joint_position + 2 * Real.pi
        else btNormalizeAngle v - jc.joint_position) =
      (if Real.pi < |btNormalizeAngle v - jc.joint_position| then
          2 * Real.pi - |btNormalizeAngle v - jc.joint_position|
        else btNormalizeAngle v - jc.joint_position) := by
    set d0 := btNormalizeAngle v - jc.joint_position with hd0
    by_cases hgt : Real.pi < d0
    · rw [if_pos hgt, if_pos (by rw [abs_of_pos (lt_trans Real.pi_pos hgt)]; exact hgt),
        abs_of_pos (lt_trans Real.pi_pos hgt)]
    · rw [if_neg hgt]
      by_cases hneg : d0 < -Real.pi
      · rw [if_pos hneg, if_pos (by rw [abs_of_neg (by linarith [Real.pi_pos])]; linarith),
          abs_of_neg (by linarith [Real.pi_pos] : d0 < 0)]
        ring
      · rw [if_neg hneg, if_neg]
        rw [not_lt, abs_le]
        exact ⟨by linarith [not_lt.mp hneg], not_lt.mp hgt⟩
  unfold JointConstraint.decide
  rw [hm]
  simp only [hv, hc, if_true]
  rw [hd1]
  rfl

/-- Unrolling KinematicConstraintSet::decide's fold: the flag is the
conjunction of all member flags and the cost the sum of all member costs. -/
lemma set_decide_foldl (l : List Constraint) (ext : Ext) (state : KState) :
    ∀ b d, l.foldl
        (fun acc c =>
          let r := c.decide ext state
          (acc.1 && r.1, acc.2 + r.2))
        (b, d) =
      (b && l.all fun c => (c.decide ext state).1,
       d + (l.map fun c => (c.decide ext state).2).sum) := by
  induction l with
  | nil => intro b d; simp
  | cons a t ih =>
      intro b d
      simp only [List.foldl_cons, List.all_cons, List.map_cons, List.sum_cons]
      rw [ih]
      rw [Bool.and_assoc, add_assoc]

lemma perm_all_eq {l1 l2 : List Constraint} (h : l1.Perm l2) (p : Constraint → Bool) :
    l1.all p = l2.all p := by
  induction h with
  | nil => rfl
  | cons a _ ih => simp only [List.all_cons, ih]
  | swap a b t =>
      simp only [List.all_cons, ← Bool.and_assoc]
      rw [Bool.and_comm (p b) (p a)]
  | trans _ _ ih1 ih2 => rw [ih1, ih2]

/-! ### Concrete fixtures used by witnesses and counterexamples -/

def trivialBody : Body := { pose := Tr.id, contains := fun _ _ => true }

def trivialExt : Ext :=
  { isFixedFrame := fun _ => true
    planningFrame := "world"
    tfTransformFixed := fun t _ => t
    tfQuatFixed := fun q _ => q
    tfTransformAtState := fun _ t _ => t
    tfMatrixAtState := fun _ m _ => m
    tfToTargetFrame := fun _ _ => Tr.id
    poseFromMsg := fun _ => Tr.id
    quatFromMsg := fun _ => Quat.id
    quatToMat := fun _ => Mat3.id
    eulerYPR := fun _ => (0, 0, 0)
    constructBody := fun _ => some trivialBody
    checkRobotCollision := fun _ _ => (false, 0) }

def trivialModel : KModel :=
  { getJointModel := fun _ => none, getLinkModel := fun _ => none }

def emptyState : KState :=
  { jointValues := fun _ => none, linkTransforms := fun _ => none }

def poseMsgW : PoseStampedMsg := ⟨"f", ⟨0, 0, 0, 0, 0, 0, 1⟩⟩

def jointMsgW : JointConstraintMsg := ⟨"j", 0, 0, 0, 0⟩

def positionMsgW : PositionConstraintMsg := ⟨"l", ⟨0, 0, 0⟩, ⟨0, []⟩, poseMsgW, 0⟩

def orientationMsgW : OrientationConstraintMsg := ⟨"l", ⟨"f", ⟨0, 0, 0, 1⟩⟩, 0, 0, 0, 0⟩

def visibilityMsgW : VisibilityConstraintMsg := ⟨1, 4, poseMsgW, poseMsgW, 0, 0⟩

/-! ### Claim theorems -/

/-- C3: mergeConstraints(a, b) equals a with, appended: every joint
constraint of b whose joint name equals no joint name occurring in a's
joint constraints (on a name collision a's entry wins and b's is dropped),
and every position, orientation and visibility constraint of b appended
unconditionally. -/
theorem mergeConstraints_spec (a b : ConstraintsMsg) :
    (mergeConstraints a b).joint_constraints =
      a.joint_constraints ++ b.joint_constraints.filter
        (fun jc => Decidable.decide (∀ j ∈ a.joint_constraints, j.joint_name ≠ jc.joint_name))
    ∧ (mergeConstraints a b).position_constraints =
        a.position_constraints ++ b.position_constraints
    ∧ (mergeConstraints a b).orientation_constraints =
        a.orientation_constraints ++ b.orientation_constraints
    ∧ (mergeConstraints a b).visibility_constraints =
        a.visibility_constraints ++ b.visibility_constraints := by
  refine ⟨?_, rfl, rfl, rfl⟩
  show a.joint_constraints ++ _ = a.joint_constraints ++ _
  congr 1
  apply List.filter_congr
  intro x _
  by_cases hP : ∀ j ∈ a.joint_constraints, j.joint_name ≠ x.joint_name
  · rw [decide_eq_true hP, Bool.not_eq_true', List.any_eq_false]
    intro j hj hbe
    exact hP j hj (beq_iff_eq.mp hbe).symm
  · rw [decide_eq_false hP]
    push_neg at hP
    obtain ⟨j, hj, he⟩ := hP
    rw [Bool.not_eq_false']
    exact List.any_eq_true.mpr ⟨j, hj, beq_iff_eq.mpr he.symm⟩

/-- C10: mergeConstraints deduplicates joint constraints of the second
argument only against the first argument: when a joint name occurs nowhere
in a's joint constraints, every occurrence of it in b survives into the
merged list, so duplicates inside b are preserved. -/
theorem merge_dedup_only_against_first (a b : ConstraintsMsg) (n : String)
    (h : ∀ j ∈ a.joint_constraints, j.joint_name ≠ n) :
    (mergeConstraints a b).joint_constraints.countP (fun j => j.joint_name == n) =
      b.joint_constraints.countP (fun j => j.joint_name == n)
    ∧ a.joint_constraints.countP (fun j => j.joint_name == n) = 0 := by
  have ha : a.joint_constraints.countP (fun j => j.joint_name == n) = 0 := by
    rw [List.countP_eq_zero]
    intro j hj hbe
    exact h j hj (beq_iff_eq.mp hbe)
  refine ⟨?_, ha⟩
  show List.countP _ (a.joint_constraints ++ _) = _
  rw [List.countP_append, ha, Nat.zero_add, List.countP_filter]
  apply List.countP_congr
  intro x _
  constructor
  · intro hx
    exact (Bool.and_eq_true _ _).mp hx |>.1
  · intro hx
    have hxn : x.joint_name = n := beq_iff_eq.mp hx
    refine (Bool.and_eq_true _ _).mpr ⟨hx, ?_⟩
    rw [Bool.not_eq_true', List.any_eq_false]
    intro j hj hbe
    exact h j hj (hxn ▸ (beq_iff_eq.mp hbe).symm)

/-- C10 witness: a second argument holding two joint constraints named x,
merged against a first argument not mentioning x, keeps both copies. -/
theorem merge_dedup_only_against_first_witness :
    (mergeConstraints ⟨[], [], [], []⟩
        ⟨[⟨"x", 0, 0, 0, 0⟩, ⟨"x", 1, 0, 0, 0⟩], [], [], []⟩).joint_constraints.countP
      (fun j => j.joint_name == "x") = 2 := by
  rw [(merge_dedup_only_against_first ⟨[], [], [], []⟩
      ⟨[⟨"x", 0, 0, 0, 0⟩, ⟨"x", 1, 0, 0, 0⟩], [], [], []⟩ "x"
      (by intro j hj; cases hj)).1]
  rfl

/-- C2: KinematicConstraintSet::decide returns the conjunction of all member
satisfied flags (true on the empty set) and the sum of all member costs,
counting unsatisfied members' costs too, and the aggregate is invariant
under permutation of the members. -/
theorem constraintSet_decide_aggregate (s t : KinematicConstraintSet) (ext : Ext)
    (state : KState) (hperm : t.kce.Perm s.kce) :
    (s.decide ext state).1 = (s.kce.all fun c => (c.decide ext state).1)
    ∧ (s.decide ext state).2 = (s.kce.map fun c => (c.decide ext state).2).sum
    ∧ (s.kce = [] → s.decide ext state = (true, 0))
    ∧ t.decide ext state = s.decide ext state := by
  have key : ∀ u : KinematicConstraintSet,
      u.decide ext state =
        ((u.kce.all fun c => (c.decide ext state).1),
         (u.kce.map fun c => (c.decide ext state).2).sum) := by
    intro u
    unfold KinematicConstraintSet.decide
    rw [set_decide_foldl]
    rw [Bool.true_and, zero_add]
  refine ⟨by rw [key], by rw [key], ?_, ?_⟩
  · intro h
    rw [key, h]
    simp
  · rw [key, key, perm_all_eq hperm, (hperm.map _).sum_eq]

def jointDisabledW : JointConstraint := JointConstraint.init

def jointMissingW : JointConstraint := { JointConstraint.init with joint_model := some "j" }

def setW : KinematicConstraintSet :=
  ⟨[.joint jointDisabledW, .joint jointMissingW], [], [], [], []⟩

def setWP : KinematicConstraintSet :=
  ⟨[.joint jointMissingW, .joint jointDisabledW], [], [], [], []⟩

/-- C2 witness: a two-member set evaluated both ways round. -/
theorem constraintSet_decide_aggregate_witness :
    KinematicConstraintSet.decide setWP trivialExt emptyState =
      KinematicConstraintSet.decide setW trivialExt emptyState
    ∧ (KinematicConstraintSet.decide setW trivialExt emptyState).1 = false := by
  have h := constraintSet_decide_aggregate setW setWP trivialExt emptyState
    (List.Perm.swap _ _ _)
  exact ⟨h.2.2.2, by rw [h.1]; rfl⟩

/-- C8: an enabled joint, position or orientation constraint whose named
joint or link is absent from the supplied state returns exactly (false, 0). -/
theorem decide_missing_state_entry (ext : Ext) (state : KState)
    (jc : JointConstraint) (pc : PositionConstraint) (oc : OrientationConstraint)
    (nj nl no : String) (b : Body)
    (hj : jc.joint_model = some nj) (hjs : state.jointValues nj = none)
    (hp1 : pc.link_model = some nl) (hp2 : pc.constraint_region = some b)
    (hps : state.linkTransforms nl = none)
    (ho : oc.link_model = some no) (hos : state.linkTransforms no = none) :
    jc.decide state = (false, 0)
    ∧ pc.decide ext state = (false, 0)
    ∧ oc.decide ext state = (false, 0) := by
  refine ⟨?_, ?_, ?_⟩
  · unfold JointConstraint.decide
    rw [hj]
    simp only [hjs]
  · unfold PositionConstraint.decide
    rw [hp1, hp2]
    simp only [hps]
  · unfold OrientationConstraint.decide
    rw [ho]
    simp only [hos]

def jcMissW : JointConstraint := { JointConstraint.init with joint_model := some "j" }

def pcMissW : PositionConstraint :=
  { PositionConstraint.init with link_model := some "l", constraint_region := some trivialBody }

def ocMissW : OrientationConstraint :=
  { OrientationConstraint.init with link_model := some "l" }

/-- C8 witness: enabled constraints evaluated against an empty state. -/
theorem decide_missing_state_entry_witness :
    JointConstraint.decide jcMissW emptyState = (false, 0)
    ∧ PositionConstraint.decide pcMissW trivialExt emptyState = (false, 0)
    ∧ OrientationConstraint.decide ocMissW trivialExt emptyState = (false, 0) :=
  decide_missing_state_entry trivialExt emptyState jcMissW pcMissW ocMissW "j" "l" "l"
    trivialBody rfl rfl rfl rfl rfl rfl rfl

/-- C7: a disabled constraint of any kind evaluates to exactly (true, 0);
clear() disables every kind, and each kind's use() reports success exactly
when it leaves the constraint enabled. -/
theorem disabled_decide_vacuous (ext : Ext) (state : KState)
    (jc : JointConstraint) (pc : PositionConstraint) (oc : OrientationConstraint)
    (vc : VisibilityConstraint) (jc0 : JointConstraint) (pc0 : PositionConstraint)
    (oc0 : OrientationConstraint) (vc0 : VisibilityConstraint) (model : KModel)
    (jm : JointConstraintMsg) (pm : PositionConstraintMsg) (om : OrientationConstraintMsg)
    (vm : VisibilityConstraintMsg)
    (hj : jc.enabled = false) (hp : pc.enabled = false)
    (ho : oc.enabled = false) (hv : vc.enabled = false) :
    jc.decide state = (true, 0)
    ∧ pc.decide ext state = (true, 0)
    ∧ oc.decide ext state = (true, 0)
    ∧ vc.decide ext state = (true, 0)
    ∧ jc0.clear.enabled = false
    ∧ pc0.clear.enabled = false
    ∧ oc0.clear.enabled = false
    ∧ vc0.clear.enabled = false
    ∧ (JointConstraint.use model jm jc0).2 = (JointConstraint.use model jm jc0).1.enabled
    ∧ (PositionConstraint.use model ext pm pc0).2 =
        (PositionConstraint.use model ext pm pc0).1.enabled
    ∧ (OrientationConstraint.use model ext om oc0).2 =
        (OrientationConstraint.use model ext om oc0).1.enabled
    ∧ (VisibilityConstraint.use ext vm vc0).2 = (VisibilityConstraint.use ext vm vc0).1.enabled := by
  have hjm : jc.joint_model = none := by
    cases h : jc.joint_model with
    | none => rfl
    | some a => rw [JointConstraint.enabled, h] at hj; cases hj
  have hpd : pc.decide ext state = (true, 0) := by
    rw [PositionConstraint.enabled, Bool.and_eq_false_iff] at hp
    unfold PositionConstraint.decide
    cases hl : pc.link_model with
    | none =>
        cases hr : pc.constraint_region with
        | none => rfl
        | some b => rfl
    | some l =>
        cases hr : pc.constraint_region with
        | none => rfl
        | some b =>
            exfalso
            rcases hp with h | h
            · rw [hl] at h; cases h
            · rw [hr] at h; cases h
  have hom : oc.link_model = none := by
    cases h : oc.link_model with
    | none => rfl
    | some a => rw [OrientationConstraint.enabled, h] at ho; cases ho
  have hvr : vc.target_radius ≤ dblEps := by
    rw [VisibilityConstraint.enabled] at hv
    by_cases h : dblEps < vc.target_radius
    · rw [if_pos h] at hv; cases hv
    · exact not_lt.mp h
  refine ⟨?_, hpd, ?_, ?_, rfl, rfl, rfl, ?_, ?_, ?_, rfl, rfl⟩
  · unfold JointConstraint.decide
    rw [hjm]
  · unfold OrientationConstraint.decide
    rw [hom]
  · unfold VisibilityConstraint.decide
    rw [if_pos hvr]
  · rw [VisibilityConstraint.clear, VisibilityConstraint.enabled]
    rw [if_neg (by rw [dblEps]; norm_num)]
  · unfold JointConstraint.use
    cases model.getJointModel jm.joint_name with
    | none => rfl
    | some j => rfl
  · unfold PositionConstraint.use
    cases model.getLinkModel pm.link_name with
    | none =>
        cases ext.constructBody pm.constraint_region_shape with
        | none => rfl
        | some b => rfl
    | some u =>
        cases ext.constructBody pm.constraint_region_shape with
        | none => rfl
        | some b =>
            cases hf : ext.isFixedFrame pm.constraint_region_pose.frame_id with
            | false => simp only [hf]; rfl
            | true => simp only [hf]; rfl

/-- C7 witness: freshly constructed (hence disabled) constraints of all four
kinds evaluated on a concrete state. -/
theorem disabled_decide_vacuous_witness :
    JointConstraint.decide JointConstraint.init emptyState = (true, 0)
    ∧ PositionConstraint.decide PositionConstraint.init trivialExt emptyState = (true, 0)
    ∧ OrientationConstraint.decide OrientationConstraint.init trivialExt emptyState = (true, 0)
    ∧ VisibilityConstraint.decide VisibilityConstraint.init trivialExt emptyState = (true, 0) := by
  have h := disabled_decide_vacuous trivialExt emptyState JointConstraint.init
    PositionConstraint.init OrientationConstraint.init VisibilityConstraint.init
    JointConstraint.init PositionConstraint.init OrientationConstraint.init
    VisibilityConstraint.init trivialModel jointMsgW positionMsgW orientationMsgW
    visibilityMsgW rfl rfl rfl
    (by rw [VisibilityConstraint.enabled]
        rw [if_neg (by rw [VisibilityConstraint.init, dblEps]; norm_num)])
  exact ⟨h.1, h.2.1, h.2.2.1, h.2.2.2.1⟩

/-- C4: an enabled orientation constraint whose link is present is satisfied
iff every extracted euler error component is strictly below its tolerance
(so a constraint whose three tolerances are all zero is never satisfied,
even at exactly zero rotation error), and the cost is
weight * (|roll| + |pitch| + |yaw|). -/
theorem orientation_decide_strict (ext : Ext) (oc : OrientationConstraint) (state : KState)
    (l : String) (tr : Tr) (hl : oc.link_model = some l)
    (ht : state.linkTransforms l = some tr) :
    ((oc.decide ext state).1 = true ↔
      (|(oc.errorYPR ext state tr).2.2| < oc.absolute_roll_tolerance ∧
       |(oc.errorYPR ext state tr).2.1| < oc.absolute_pitch_tolerance ∧
       |(oc.errorYPR ext state tr).1| < oc.absolute_yaw_tolerance))
    ∧ (oc.decide ext state).2 =
        oc.constraint_weight *
          (|(oc.errorYPR ext state tr).2.2| + |(oc.errorYPR ext state tr).2.1| +
           |(oc.errorYPR ext state tr).1|)
    ∧ (oc.absolute_roll_tolerance = 0 → oc.absolute_pitch_tolerance = 0 →
        oc.absolute_yaw_tolerance = 0 → (oc.decide ext state).1 = false) := by
  unfold OrientationConstraint.decide
  rw [hl]
  simp only [ht]
  refine ⟨ite_true_false_eq_true_iff _, trivial, ?_⟩
  intro h0r h0p h0y
  rw [h0r]
  rw [if_neg fun hc => absurd hc.1 (not_lt.mpr (abs_nonneg _))]

def ocZeroW : OrientationConstraint := { OrientationConstraint.init with link_model := some "l" }

def linkStateW : KState := { jointValues := fun _ => none, linkTransforms := fun _ => some Tr.id }

/-- C4 witness: zero tolerances reject even a state with exactly zero
rotation error. -/
theorem orientation_decide_strict_witness :
    (OrientationConstraint.decide ocZeroW trivialExt linkStateW).1 = false :=
  (orientation_decide_strict trivialExt ocZeroW linkStateW "l" Tr.id rfl rfl).2.2 rfl rfl rfl

/-- C5 counterexample: a strictly positive input weight that does not exceed
machine epsilon (here epsilon/2) is not stored; the configured weight stays
at the default epsilon, refuting "stored exactly when positive". -/
theorem weight_positive_counterexample :
    (0 : ℝ) < dblEps / 2
    ∧ dblEps / 2 ≠ dblEps
    ∧ (OrientationConstraint.use trivialModel trivialExt
        { orientationMsgW with weight := dblEps / 2 }
        OrientationConstraint.init).1.constraint_weight = dblEps := by
  refine ⟨by rw [dblEps]; norm_num, by rw [dblEps]; norm_num, ?_⟩
  show (if dblEps / 2 ≤ dblEps then OrientationConstraint.init.constraint_weight
        else dblEps / 2) = dblEps
  rw [if_pos (by rw [dblEps]; norm_num)]
  rfl

/-- C5 amended: the weight-handling step runs unconditionally for
orientation and visibility constraints, only when the joint resolves for
joint constraints, and only when both the link and the region resolve for
position constraints; when it runs it stores the input weight exactly when
the input exceeds machine epsilon, otherwise the stored weight stays at the
default epsilon. -/
theorem configure_weight_threshold (model : KModel) (ext : Ext) (jm : JointConstraintMsg)
    (pm : PositionConstraintMsg) (om : OrientationConstraintMsg)
    (vm : VisibilityConstraintMsg) :
    ((JointConstraint.use model jm JointConstraint.init).1.constraint_weight =
      if (model.getJointModel jm.joint_name).isSome then
        (if jm.weight ≤ dblEps then dblEps else jm.weight) else dblEps)
    ∧ ((PositionConstraint.use model ext pm PositionConstraint.init).1.constraint_weight =
      if (model.getLinkModel pm.link_name).isSome ∧
          (ext.constructBody pm.constraint_region_shape).isSome then
        (if pm.weight ≤ dblEps then dblEps else pm.weight) else dblEps)
    ∧ ((OrientationConstraint.use model ext om OrientationConstraint.init).1.constraint_weight =
        if om.weight ≤ dblEps then dblEps else om.weight)
    ∧ ((VisibilityConstraint.use ext vm VisibilityConstraint.init).1.constraint_weight =
        if vm.weight ≤ dblEps then dblEps else vm.weight) := by
  refine ⟨?_, ?_, rfl, rfl⟩
  · cases h : model.getJointModel jm.joint_name with
    | none => unfold JointConstraint.use; rw [h]; rfl
    | some j => unfold JointConstraint.use; rw [h]; rfl
  · cases hl : model.getLinkModel pm.link_name with
    | none =>
        cases hb : ext.constructBody pm.constraint_region_shape with
        | none => unfold PositionConstraint.use; rw [hl, hb]; rfl
        | some b => unfold PositionConstraint.use; rw [hl, hb]; rfl
    | some u =>
        cases hb : ext.constructBody pm.constraint_region_shape with
        | none => unfold PositionConstraint.use; rw [hl, hb]; rfl
        | some b =>
            unfold PositionConstraint.use
            rw [hl, hb]
            cases hf : ext.isFixedFrame pm.constraint_region_pose.frame_id with
            | false => simp only [hf]; rfl
            | true => simp only [hf]; rfl

/-- C6: VisibilityConstraint::use stores the absolute value of the input
radius; it returns true, and the resulting constraint is enabled, exactly
when the stored radius exceeds epsilon — so a negative input of magnitude
above epsilon yields an enabled constraint with a positive radius. -/
theorem visibility_use_radius_abs (ext : Ext) (vm : VisibilityConstraintMsg) :
    (VisibilityConstraint.use ext vm VisibilityConstraint.init).1.target_radius =
      |vm.target_radius|
    ∧ ((VisibilityConstraint.use ext vm VisibilityConstraint.init).2 = true ↔
        dblEps < (VisibilityConstraint.use ext vm VisibilityConstraint.init).1.target_radius)
    ∧ ((VisibilityConstraint.use ext vm VisibilityConstraint.init).1.enabled = true ↔
        dblEps < (VisibilityConstraint.use ext vm VisibilityConstraint.init).1.target_radius)
    ∧ (vm.target_radius < 0 → dblEps < |vm.target_radius| →
        (VisibilityConstraint.use ext vm VisibilityConstraint.init).1.enabled = true
        ∧ 0 < (VisibilityConstraint.use ext vm VisibilityConstraint.init).1.target_radius) := by
  have hde : (0 : ℝ) < dblEps := by rw [dblEps]; norm_num
  have h2 : (VisibilityConstraint.use ext vm VisibilityConstraint.init).2 = true ↔
      dblEps < |vm.target_radius| := by
    show (if dblEps < |vm.target_radius| then true else false) = true ↔ _
    exact ite_true_false_eq_true_iff _
  have h3 : (VisibilityConstraint.use ext vm VisibilityConstraint.init).1.enabled = true ↔
      dblEps < |vm.target_radius| := by
    show (if dblEps < |vm.target_radius| then true else false) = true ↔ _
    exact ite_true_false_eq_true_iff _
  refine ⟨rfl, h2, h3, ?_⟩
  intro _ habs
  exact ⟨h3.mpr habs, lt_trans hde habs⟩

def visMsgNegW : VisibilityConstraintMsg := ⟨-1, 4, poseMsgW, poseMsgW, 0, 0⟩

/-- C6 witness: input radius -1 gives an enabled constraint of radius 1. -/
theorem visibility_use_radius_abs_witness :
    (VisibilityConstraint.use trivialExt visMsgNegW VisibilityConstraint.init).1.enabled = true
    ∧ 0 < (VisibilityConstraint.use trivialExt visMsgNegW
        VisibilityConstraint.init).1.target_radius :=
  (visibility_use_radius_abs trivialExt visMsgNegW).2.2.2
    (by show (-1 : ℝ) < 0; norm_num)
    (by show dblEps < |(-1 : ℝ)|; rw [dblEps, abs_neg, abs_one]; norm_num)

/-- C9: for an enabled visibility constraint, a non-positive max_view_angle
skips the view-angle pre-check entirely and decide is exactly the
cone-vs-robot collision outcome; a positive max_view_angle exceeded by the
view angle makes decide return (false, 0) regardless of the collision
checker, so the collision test is not consulted. -/
theorem visibility_view_angle_gate (self : VisibilityConstraint) (ext : Ext) (state : KState)
    (hen : dblEps < self.target_radius) :
    (self.max_view_angle ≤ 0 →
      self.decide ext state =
        (if (ext.checkRobotCollision (self.getVisibilityCone ext state) state).1 then
          (false, (ext.checkRobotCollision (self.getVisibilityCone ext state) state).2)
         else (true, 0)))
    ∧ (0 < self.max_view_angle → self.max_view_angle < self.viewAngle ext state →
        ∀ f, self.decide { ext with checkRobotCollision := f } state = (false, 0)) := by
  constructor
  · intro hmax
    unfold VisibilityConstraint.decide
    rw [if_neg (not_le.mpr hen), if_neg fun hc => absurd hc.1 (not_lt.mpr hmax)]
  · intro hpos hang f
    unfold VisibilityConstraint.decide
    rw [if_neg (not_le.mpr hen)]
    rw [if_pos (show 0 < self.max_view_angle ∧ self.max_view_angle <
        self.viewAngle { ext with checkRobotCollision := f } state from ⟨hpos, hang⟩)]

def visNoAngleW : VisibilityConstraint :=
  { VisibilityConstraint.init with target_radius := 1, max_view_angle := 0 }

def visAngleW : VisibilityConstraint :=
  { VisibilityConstraint.init with
      target_radius := 1
      max_view_angle := 1
      target_pose := ⟨Mat3.id, ⟨1, 0, 0⟩⟩ }

/-- C9 witness: with max_view_angle 0 a collision-free cone passes; with
max_view_angle 1 and a view angle of pi/2 the constraint fails at (false, 0)
even under a collision checker that always reports a deep collision. -/
theorem visibility_view_angle_gate_witness :
    VisibilityConstraint.decide visNoAngleW trivialExt emptyState = (true, 0)
    ∧ VisibilityConstraint.decide visAngleW
        { trivialExt with checkRobotCollision := fun _ _ => (true, 5) } emptyState =
      (false, 0) := by
  have hrad : dblEps < (1 : ℝ) := by rw [dblEps]; norm_num
  constructor
  · have h := (visibility_view_angle_gate visNoAngleW trivialExt emptyState hrad).1 (le_refl 0)
    rw [h]
    rfl
  · have hva : visAngleW.viewAngle trivialExt emptyState = Real.arccos 0 := by
      unfold VisibilityConstraint.viewAngle VisibilityConstraint.sensorPoseAt
        VisibilityConstraint.targetPoseAt visAngleW VisibilityConstraint.init
      norm_num [Vec3.sub, Vec3.normalized, Vec3.dot, Vec3.length, Vec3.length2,
        Mat3.col2, Tr.id, Mat3.id, Real.sqrt_one]
    have hang : visAngleW.max_view_angle < visAngleW.viewAngle trivialExt emptyState := by
      show (1 : ℝ) < visAngleW.viewAngle trivialExt emptyState
      rw [hva, Real.arccos_zero]
      linarith [Real.pi_gt_three]
    exact (visibility_view_angle_gate visAngleW trivialExt emptyState hrad).2
      (by show (0 : ℝ) < 1; norm_num) hang (fun _ _ => (true, 5))

def cexModel : KModel :=
  { getJointModel := fun _ => some ⟨1, true⟩, getLinkModel := fun _ => none }

def cexJointMsg : JointConstraintMsg := ⟨"j", 3, 1, 1 / 10, 1⟩

def cexState : KState :=
  { jointValues := fun _ => some (-29 / 10), linkTransforms := fun _ => none }

/-- C1 counterexample: a continuous joint with target 3.0 (configured
through use), current value -2.9, tolerance_above 1 and tolerance_below
0.1.  The wrapped difference magnitude 2*pi - 5.9 (about 0.383) lies inside
[-tolerance_below, tolerance_above], and the claim says the difference is
positive (current above the target across the wrap boundary), hence
satisfied; but decide reports violated, because it negates the wrapped
difference (raw current is numerically below the target) and tests it
against -tolerance_below. -/
theorem joint_wrap_sign_counterexample :
    ((JointConstraint.use cexModel cexJointMsg JointConstraint.init).1.decide cexState).1 = false
    ∧ (0 : ℝ) < 2 * Real.pi - 59 / 10
    ∧ 2 * Real.pi - 59 / 10 ≤ 1
    ∧ -(1 / 10 : ℝ) ≤ 2 * Real.pi - 59 / 10 := by
  have hpiL := Real.pi_gt_d2
  have hpiU := Real.pi_lt_d2
  have hn3 : btNormalizeAngle (3 : ℝ) = 3 :=
    btNormalizeAngle_eq_self (by linarith) (by linarith)
  have hnc : btNormalizeAngle (-29 / 10 : ℝ) = -29 / 10 :=
    btNormalizeAngle_eq_self (by linarith) (by linarith)
  have habs : |(-29 / 10 : ℝ) - 3| = 59 / 10 := by
    rw [show (-29 / 10 : ℝ) - 3 = -(59 / 10) by norm_num, abs_neg,
      abs_of_nonneg (by norm_num : (0 : ℝ) ≤ 59 / 10)]
  have hwd : wrappedDif (-29 / 10 : ℝ) 3 = 59 / 10 - 2 * Real.pi := by
    unfold wrappedDif wrapMag
    rw [hnc, habs]
    rw [if_pos (by norm_num : (-29 / 10 : ℝ) < 3), if_pos (by linarith : Real.pi < 59 / 10)]
    ring
  have hdec := jointDecide_continuous
    (JointConstraint.use cexModel cexJointMsg JointConstraint.init).1 cexState "j"
    (-29 / 10) rfl rfl rfl
  have hproj : (JointConstraint.use cexModel cexJointMsg
      JointConstraint.init).1.joint_position = btNormalizeAngle 3 := rfl
  have hta : (JointConstraint.use cexModel cexJointMsg
      JointConstraint.init).1.joint_tolerance_above = 1 := rfl
  have htb : (JointConstraint.use cexModel cexJointMsg
      JointConstraint.init).1.joint_tolerance_below = 1 / 10 := rfl
  refine ⟨?_, by linarith, by linarith, by linarith⟩
  rw [hdec, hproj, hn3, hwd, hta, htb]
  rw [if_neg (fun hcc => by have h2 := hcc.2; rw [ge_iff_le] at h2; linarith)]

/-- C1 amended: for every enabled continuous-joint constraint whose joint is
present in the state, decide computes the signed difference wrappedDif:
the wrapped magnitude of normalized-current minus target, negated exactly
when the raw current value is numerically below the stored target (for
target 3.0 and current -2.9 this gives -(2*pi - 5.9), tested against
tolerance_below).  The result is satisfied iff wrappedDif lies within
[-tolerance_below, tolerance_above] and the cost is
constraint_weight * |wrappedDif|. -/
theorem joint_decide_continuous_wrapped (jc : JointConstraint) (state : KState)
    (n : String) (v : ℝ) (hm : jc.joint_model = some n)
    (hc : jc.joint_is_continuous = true) (hv : state.jointValues n = some v) :
    jc.decide state =
      (if wrappedDif v jc.joint_position ≤ jc.joint_tolerance_above ∧
          wrappedDif v jc.joint_position ≥ -jc.joint_tolerance_below then true else false,
       jc.constraint_weight * |wrappedDif v jc.joint_position|)
    ∧ ((jc.decide state).1 = true ↔
        (wrappedDif v jc.joint_position ≤ jc.joint_tolerance_above ∧
         wrappedDif v jc.joint_position ≥ -jc.joint_tolerance_below)) := by
  have h := jointDecide_continuous jc state n v hm hc hv
  refine ⟨h, ?_⟩
  rw [h]
  exact ite_true_false_eq_true_iff _

def jcContW : JointConstraint :=
  { joint_model := some "j"
    joint_is_continuous := true
    joint_position := 0
    joint_tolerance_above := 1 / 2
    joint_tolerance_below := 1 / 4
    constraint_weight := 1 }

def stContW : KState :=
  { jointValues := fun _ => some (1 / 4), linkTransforms := fun _ => none }

/-- C1 witness: continuous joint at target 0, current 0.25, asymmetric
tolerances 0.5 above and 0.25 below: satisfied with cost 0.25. -/
theorem joint_decide_continuous_wrapped_witness :
    JointConstraint.decide jcContW stContW = (true, 1 / 4) := by
  have h := (joint_decide_continuous_wrapped jcContW stContW "j" (1 / 4) rfl rfl rfl).1
  have hpiL := Real.pi_gt_d2
  have hn : btNormalizeAngle (1 / 4 : ℝ) = 1 / 4 :=
    btNormalizeAngle_eq_self (by linarith) (by linarith)
  have habs : |(1 / 4 : ℝ) - 0| = 1 / 4 := by
    rw [show (1 / 4 : ℝ) - 0 = 1 / 4 by norm_num,
      abs_of_nonneg (by norm_num : (0 : ℝ) ≤ 1 / 4)]
  have hwd : wrappedDif (1 / 4 : ℝ) jcContW.joint_position = 1 / 4 := by
    show wrappedDif (1 / 4 : ℝ) 0 = 1 / 4
    unfold wrappedDif wrapMag
    rw [hn, habs]
    rw [if_neg (by norm_num : ¬ ((1 / 4 : ℝ) < 0)),
      if_neg (not_lt.mpr (by linarith : (1 / 4 : ℝ) ≤ Real.pi))]
    norm_num
  rw [h, hwd]
  have hc1 : (1 / 4 : ℝ) ≤ jcContW.joint_tolerance_above ∧
      (1 / 4 : ℝ) ≥ -jcContW.joint_tolerance_below := by
    constructor
    · show (1 / 4 : ℝ) ≤ 1 / 2; norm_num
    · show (1 / 4 : ℝ) ≥ -(1 / 4); norm_num
  rw [if_pos hc1]
  show (true, (1 : ℝ) * |(1 / 4 : ℝ)|) = (true, 1 / 4)
  rw [abs_of_nonneg (by norm_num : (0 : ℝ) ≤ 1 / 4)]
  norm_num

end KinematicConstraints
